import Mathlib

/-!
Shallow embedding of the chioma rent-agreement Soroban contracts
(src/contract/contracts/chioma/src/ with files lib.rs, types.rs, payment.rs).

Modelling conventions:
- Principals (soroban Address values) are opaque numeric identifiers.
- Contract strings are Lean strings.
- Machine integers: i128 is Int with explicit wrapping (Rust release-mode
  arithmetic, overflow-checks off) where an operation can overflow; u32 and
  u64 are Nat, with explicit wrapping on the one u32 increment.
- Storage: the crate contains two contract impls, Contract (lib.rs) and
  RentalContract (payment.rs).  Deployed together they share one storage
  instance, but soroban distinguishes durability classes: lib.rs routes
  agreements and payment records through persistent storage and counters
  through instance storage, while payment.rs routes its agreements and
  payment records through instance storage.  A persistent slot and an
  instance slot never alias even for identical serialized keys, so the
  combined storage is modelled as a record with one field per
  (durability class, key variant) pair that the code actually uses.
- require_auth and token transfers are external primitives that either
  succeed or abort the whole invocation with no state change; the success
  path is what the state-transition functions model.  An invocation that
  returns an error is rolled back by the host, which the apply functions
  below model by returning the pre-call state.
-/

set_option maxRecDepth 8000

/-- Soroban Address, modelled as an opaque numeric identifier. -/
abbrev Address := Nat

/-- Wrapping of a mathematical integer into the i128 range, the semantics
of Rust release-mode (overflow-checks off) i128 arithmetic. -/
def i128wrap (x : Int) : Int := (x + 2 ^ 127) % 2 ^ 128 - 2 ^ 127

/-- Wrapping of a natural number into the u32 range (Rust release-mode u32). -/
def u32wrap (n : Nat) : Nat := n % 2 ^ 32

namespace Types

/-- AgreementStatus from types.rs. -/
inductive AgreementStatus where
  | Draft
  | Pending
  | Active
  | Completed
  | Cancelled
  | Terminated
  | Disputed
deriving DecidableEq

/-- RentAgreement from types.rs. -/
structure RentAgreement where
  agreement_id : String
  landlord : Address
  tenant : Address
  agent : Option Address
  monthly_rent : Int
  security_deposit : Int
  start_date : Nat
  end_date : Nat
  agent_commission_rate : Nat
  status : AgreementStatus
  total_rent_paid : Int
  payment_count : Nat
deriving DecidableEq

/-- Error from types.rs (contracterror codes 4,5,6,7,10,11,12). -/
inductive Error where
  | AgreementAlreadyExists
  | InvalidAmount
  | InvalidDate
  | InvalidCommissionRate
  | AgreementNotActive
  | PaymentNotFound
  | PaymentFailed
deriving DecidableEq

/-- PaymentRecord from types.rs. -/
structure PaymentRecord where
  agreement_id : String
  payment_number : Nat
  amount : Int
  landlord_amount : Int
  agent_amount : Int
  timestamp : Nat
  tenant : Address
deriving DecidableEq

/-- DataKey from types.rs: the logical key variants used by lib.rs. -/
inductive DataKey where
  | Agreement (id : String)
  | AgreementCount
  | Payment (id : String)
  | PaymentRecord (id : String) (n : Nat)
  | PaymentCount
deriving DecidableEq

end Types

namespace Payment

/-- Error from payment.rs (a module-local enum, codes 10,11,12). -/
inductive Error where
  | AgreementNotActive
  | InvalidAmount
  | PaymentFailed
deriving DecidableEq

/-- PaymentRecord from payment.rs. -/
structure PaymentRecord where
  agreement_id : String
  payment_number : Nat
  amount : Int
  landlord_amount : Int
  agent_amount : Int
  timestamp : Nat
  tenant : Address
deriving DecidableEq

/-- AgreementStatus from payment.rs (a second, module-local enum). -/
inductive AgreementStatus where
  | Pending
  | Active
  | Completed
  | Cancelled
deriving DecidableEq

/-- Agreement from payment.rs (a second, module-local agreement record). -/
structure Agreement where
  id : String
  tenant : Address
  landlord : Address
  agent : Option Address
  monthly_rent : Int
  commission_rate : Nat
  status : AgreementStatus
  total_rent_paid : Int
  payment_count : Nat
deriving DecidableEq

/-- DataKey from payment.rs (a second, module-local key enum). -/
inductive DataKey where
  | Agreement (id : String)
  | PaymentRecord (id : String) (n : Nat)
deriving DecidableEq

end Payment

/-- The combined storage of the deployed crate, one field per
(durability class, key variant) pair actually read or written:
- agreements: persistent slots DataKey.Agreement(id) of lib.rs;
- agreementCount: instance slot DataKey.AgreementCount (u32, absent reads as 0);
- payments: persistent slots DataKey.Payment(id) read by lib.rs get_payment;
- paymentCount: instance slot DataKey.PaymentCount (u32, absent reads as 0);
- instAgreements: instance slots DataKey.Agreement(id) used by payment.rs;
- instPaymentRecords: instance slots DataKey.PaymentRecord(id, n) of payment.rs. -/
structure GlobalState where
  agreements : String → Option Types.RentAgreement
  agreementCount : Nat
  payments : String → Option Types.PaymentRecord
  paymentCount : Nat
  instAgreements : String → Option Payment.Agreement
  instPaymentRecords : String → Nat → Option Payment.PaymentRecord

/-- The storage before any invocation: every slot is absent. -/
def emptyState : GlobalState where
  agreements := fun _ => none
  agreementCount := 0
  payments := fun _ => none
  paymentCount := 0
  instAgreements := fun _ => none
  instPaymentRecords := fun _ _ => none

/-- Contract::validate_agreement_params from lib.rs. -/
def validate_agreement_params (monthly_rent security_deposit : Int)
    (start_date end_date : Nat) (agent_commission_rate : Nat) :
    Except Types.Error Unit :=
  if monthly_rent ≤ 0 ∨ security_deposit < 0 then
    .error .InvalidAmount
  else if start_date ≥ end_date then
    .error .InvalidDate
  else if agent_commission_rate > 100 then
    .error .InvalidCommissionRate
  else
    .ok ()

/-- Contract::create_agreement from lib.rs.  The tenant require_auth call is
an external primitive whose failure aborts the invocation; the modelled
transition is the authorized path.  The event emission has no storage
effect. -/
def create_agreement (st : GlobalState) (agreement_id : String)
    (landlord tenant : Address) (agent : Option Address)
    (monthly_rent security_deposit : Int) (start_date end_date : Nat)
    (agent_commission_rate : Nat) : Except Types.Error GlobalState :=
  match validate_agreement_params monthly_rent security_deposit
      start_date end_date agent_commission_rate with
  | .error e => .error e
  | .ok _ =>
    if (st.agreements agreement_id).isSome then
      .error .AgreementAlreadyExists
    else
      let agreement : Types.RentAgreement :=
        { agreement_id := agreement_id
          landlord := landlord
          tenant := tenant
          agent := agent
          monthly_rent := monthly_rent
          security_deposit := security_deposit
          start_date := start_date
          end_date := end_date
          agent_commission_rate := agent_commission_rate
          status := .Draft
          total_rent_paid := 0
          payment_count := 0 }
      .ok { st with
        agreements := fun s =>
          if s = agreement_id then some agreement else st.agreements s
        agreementCount := u32wrap (st.agreementCount + 1) }

/-- Contract::get_agreement from lib.rs. -/
def get_agreement (st : GlobalState) (agreement_id : String) :
    Option Types.RentAgreement :=
  st.agreements agreement_id

/-- Contract::has_agreement from lib.rs. -/
def has_agreement (st : GlobalState) (agreement_id : String) : Bool :=
  (st.agreements agreement_id).isSome

/-- Contract::get_agreement_count from lib.rs (unwrap_or 0 is folded into
the counter field, which starts at 0 and is only ever set). -/
def get_agreement_count (st : GlobalState) : Nat :=
  st.agreementCount

/-- Contract::get_payment from lib.rs. -/
def get_payment (st : GlobalState) (payment_id : String) :
    Except Types.Error Types.PaymentRecord :=
  match st.payments payment_id with
  | some p => .ok p
  | none => .error .PaymentNotFound

/-- Contract::get_payment_count from lib.rs. -/
def get_payment_count (st : GlobalState) : Nat :=
  st.paymentCount

/-- Contract::u32_to_string from lib.rs. -/
def u32_to_string (num : Nat) : String :=
  match num with
  | 0 => "0"
  | 1 => "1"
  | 2 => "2"
  | 3 => "3"
  | 4 => "4"
  | 5 => "5"
  | 6 => "6"
  | 7 => "7"
  | 8 => "8"
  | 9 => "9"
  | 10 => "10"
  | _ => "unknown"

/-- The loop body accumulation of Contract::get_total_paid: sum over
indices i < n of the amounts of persistent Payment(u32_to_string i)
records whose stored agreement_id matches. -/
def total_paid_scan (st : GlobalState) (agreement_id : String) : Nat → Int
  | 0 => 0
  | n + 1 =>
    total_paid_scan st agreement_id n +
      match st.payments (u32_to_string n) with
      | some p => if p.agreement_id = agreement_id then p.amount else 0
      | none => 0

/-- Contract::get_total_paid from lib.rs. -/
def get_total_paid (st : GlobalState) (agreement_id : String) :
    Except Types.Error Int :=
  .ok (total_paid_scan st agreement_id st.paymentCount)

/-- calculate_payment_split from payment.rs: the i128 product wraps in
release mode, the division is Rust i128 division (truncation toward zero),
and the subtraction wraps. -/
def calculate_payment_split (amount : Int) (commission_rate : Nat) :
    Int × Int :=
  let agent_amount := (i128wrap (amount * (commission_rate : Int))).tdiv 10000
  let landlord_amount := i128wrap (amount - agent_amount)
  (landlord_amount, agent_amount)

/-- create_payment_record from payment.rs (infallible, returns Ok). -/
def create_payment_record (agreement_id : String)
    (amount landlord_amount agent_amount : Int) (tenant : Address)
    (payment_number : Nat) (timestamp : Nat) :
    Except Payment.Error Payment.PaymentRecord :=
  .ok
    { agreement_id := agreement_id
      payment_number := payment_number
      amount := amount
      landlord_amount := landlord_amount
      agent_amount := agent_amount
      timestamp := timestamp
      tenant := tenant }

/-- RentalContract::pay_rent from payment.rs.  It loads the agreement from
the instance slot DataKey.Agreement(id) of the payment.rs key enum, maps an
absent agreement to Error.InvalidAmount, validates status and amount, and
on success rewrites the instance agreement slot and the instance
PaymentRecord(id, new_count) slot.  The tenant require_auth call and the
two token transfers are external primitives that either succeed or abort
the whole invocation; the modelled transition is the successful path.
The ledger timestamp is passed as a parameter. -/
def pay_rent (st : GlobalState) (agreement_id : String) (_token : Address)
    (amount : Int) (timestamp : Nat) : Except Payment.Error GlobalState :=
  match st.instAgreements agreement_id with
  | none => .error .InvalidAmount
  | some agreement =>
    if agreement.status ≠ Payment.AgreementStatus.Active then
      .error .AgreementNotActive
    else if amount ≠ agreement.monthly_rent then
      .error .InvalidAmount
    else
      let split := calculate_payment_split amount agreement.commission_rate
      match create_payment_record agreement_id amount split.1 split.2
          agreement.tenant (u32wrap (agreement.payment_count + 1)) timestamp with
      | .error e => .error e
      | .ok payment_record =>
        let agreement2 : Payment.Agreement :=
          { agreement with
            total_rent_paid := i128wrap (agreement.total_rent_paid + amount)
            payment_count := u32wrap (agreement.payment_count + 1) }
        .ok { st with
          instAgreements := fun s =>
            if s = agreement_id then some agreement2 else st.instAgreements s
          instPaymentRecords := fun s n =>
            if s = agreement_id ∧ n = agreement2.payment_count then
              some payment_record
            else st.instPaymentRecords s n }

/-- Storage after a create_agreement invocation: the host rolls an erroring
invocation back, so the pre-call state is kept on error. -/
def applyCreate (st : GlobalState) (agreement_id : String)
    (landlord tenant : Address) (agent : Option Address)
    (monthly_rent security_deposit : Int) (start_date end_date : Nat)
    (agent_commission_rate : Nat) : GlobalState :=
  match create_agreement st agreement_id landlord tenant agent monthly_rent
      security_deposit start_date end_date agent_commission_rate with
  | .ok st2 => st2
  | .error _ => st

/-- Storage after a pay_rent invocation, with rollback on error. -/
def applyPay (st : GlobalState) (agreement_id : String) (token : Address)
    (amount : Int) (timestamp : Nat) : GlobalState :=
  match pay_rent st agreement_id token amount timestamp with
  | .ok st2 => st2
  | .error _ => st

/-- Storage states reachable from the empty storage through the exposed
mutating operations create_agreement and pay_rent. -/
inductive Reachable : GlobalState → Prop where
  | init : Reachable emptyState
  | create (st : GlobalState) (agreement_id : String)
      (landlord tenant : Address) (agent : Option Address)
      (monthly_rent security_deposit : Int) (start_date end_date : Nat)
      (agent_commission_rate : Nat) : Reachable st →
      Reachable (applyCreate st agreement_id landlord tenant agent
        monthly_rent security_deposit start_date end_date
        agent_commission_rate)
  | pay (st : GlobalState) (agreement_id : String) (token : Address)
      (amount : Int) (timestamp : Nat) : Reachable st →
      Reachable (applyPay st agreement_id token amount timestamp)

/-- A state with the agreement counter at the u32 maximum, used to exhibit
the counter wrap-around. -/
def maxCountState : GlobalState :=
  { emptyState with agreementCount := 2 ^ 32 - 1 }

/-- A payment.rs agreement in Active status with monthly rent 1000 and
commission rate 0, fresh (no payments yet). -/
def activeAgreement : Payment.Agreement where
  id := "A"
  tenant := 1
  landlord := 0
  agent := none
  monthly_rent := 1000
  commission_rate := 0
  status := .Active
  total_rent_paid := 0
  payment_count := 0

/-- A storage holding activeAgreement in the instance slot that pay_rent
reads. -/
def activeState : GlobalState :=
  { emptyState with
    instAgreements := fun s => if s = "A" then some activeAgreement else none }

/-- A payment.rs agreement in Pending status, used for the inactive-status
error case. -/
def pendingAgreement : Payment.Agreement :=
  { activeAgreement with status := .Pending }

/-- A storage holding pendingAgreement in the instance slot that pay_rent
reads. -/
def pendingState : GlobalState :=
  { emptyState with
    instAgreements := fun s => if s = "A" then some pendingAgreement else none }

/-- A lib.rs rent agreement as stored by a successful create_agreement
call, used as the pre-existing entry in the duplicate-creation case. -/
def sampleRentAgreement : Types.RentAgreement where
  agreement_id := "A"
  landlord := 0
  tenant := 1
  agent := none
  monthly_rent := 1000
  security_deposit := 0
  start_date := 0
  end_date := 1
  agent_commission_rate := 0
  status := .Draft
  total_rent_paid := 0
  payment_count := 0

/-- A storage already holding sampleRentAgreement under id "A" with the
agreement counter at 1. -/
def oneAgreementState : GlobalState :=
  { emptyState with
    agreements := fun s => if s = "A" then some sampleRentAgreement else none
    agreementCount := 1 }

/-! Helper lemmas shared by several results. -/

theorem i128wrap_eq_of_bounds (x : Int) (h1 : -(2 ^ 127) ≤ x)
    (h2 : x < 2 ^ 127) : i128wrap x = x := by
  unfold i128wrap
  have e127 : (2 : Int) ^ 127 = 170141183460469231731687303715884105728 := by
    norm_num
  have e128 : (2 : Int) ^ 128 = 340282366920938463463374607431768211456 := by
    norm_num
  rw [e127, e128] at *
  omega

theorem u32wrap_eq_of_lt (n : Nat) (h : n < 2 ^ 32) : u32wrap n = n := by
  unfold u32wrap
  exact Nat.mod_eq_of_lt h

/-- indexing a payment split. -/
theorem calculate_payment_split_def (amount : Int) (commission_rate : Nat) :
    calculate_payment_split amount commission_rate =
      ((i128wrap (amount -
          (i128wrap (amount * (commission_rate : Int))).tdiv 10000)),
        (i128wrap (amount * (commission_rate : Int))).tdiv 10000) := rfl

/-- CLAIM C1 (amended).  For every i128 gross amount g with 0 ≤ g < 2^127
and every commission rate r in [0, 10000] such that the product g * r does
not overflow i128, calculate_payment_split g r returns
(landlordAmount, agentAmount) with agentAmount equal to the floor of
g * r / 10000 and landlordAmount + agentAmount equal to g exactly. -/
theorem payment_split_exact (g : Int) (r : Nat) (hg0 : 0 ≤ g)
    (hg1 : g < 2 ^ 127) (hr : r ≤ 10000)
    (hov : g * (r : Int) ≤ 2 ^ 127 - 1) :
    (calculate_payment_split g r).2 = g * (r : Int) / 10000 ∧
    (calculate_payment_split g r).1 + (calculate_payment_split g r).2 = g := by
  have hp0 : 0 ≤ g * (r : Int) := mul_nonneg hg0 (Int.natCast_nonneg r)
  have hwrap : i128wrap (g * (r : Int)) = g * (r : Int) := by
    refine i128wrap_eq_of_bounds _ (by omega) (by omega)
  have htd : (g * (r : Int)).tdiv 10000 = g * (r : Int) / 10000 :=
    Int.tdiv_eq_ediv hp0 (by norm_num)
  have hle : g * (r : Int) ≤ g * 10000 := by
    have hr10 : (r : Int) ≤ 10000 := by exact_mod_cast hr
    exact mul_le_mul_of_nonneg_left hr10 hg0
  have hA1 : g * (r : Int) / 10000 ≤ g := by
    have h1 : g * (r : Int) / 10000 ≤ g * 10000 / 10000 :=
      Int.ediv_le_ediv (by norm_num) hle
    have h2 : g * 10000 / 10000 = g := Int.mul_ediv_cancel g (by norm_num)
    omega
  have hA0 : 0 ≤ g * (r : Int) / 10000 := Int.ediv_nonneg hp0 (by norm_num)
  rw [calculate_payment_split_def, hwrap, htd]
  refine ⟨rfl, ?_⟩
  have hlw : i128wrap (g - g * (r : Int) / 10000) = g - g * (r : Int) / 10000 :=
    i128wrap_eq_of_bounds _ (by omega) (by omega)
  rw [hlw]
  ring

/-- CLAIM C1 witness: the amended statement at g = 1000, r = 500 gives the
split (950, 50). -/
theorem payment_split_exact_witness :
    (calculate_payment_split 1000 500).2 = (1000 * (500 : Int)) / 10000 ∧
    (calculate_payment_split 1000 500).1 +
      (calculate_payment_split 1000 500).2 = 1000 :=
  payment_split_exact 1000 500 (by decide) (by decide) (by decide) (by decide)

/-- CLAIM C1 counterexample.  At the i128 input g = 2^127 - 1 (which is
nonnegative) with r = 10000, the wrapped product makes the computed agent
amount -1 instead of the floor of g * r / 10000, and the two components no
longer sum to g: the claim fails without a no-overflow bound. -/
theorem payment_split_overflow_cex :
    0 ≤ (2 ^ 127 - 1 : Int) ∧
    (calculate_payment_split (2 ^ 127 - 1) 10000).2 ≠
      ((2 ^ 127 - 1) * (10000 : Int)) / 10000 ∧
    (calculate_payment_split (2 ^ 127 - 1) 10000).1 +
      (calculate_payment_split (2 ^ 127 - 1) 10000).2 ≠ 2 ^ 127 - 1 := by
  refine ⟨by decide, by decide, by decide⟩

/-- CLAIM C4 (amended).  validate_agreement_params fails with InvalidAmount
exactly when monthlyRent ≤ 0 or securityDeposit < 0; fails with InvalidDate
when the amounts are valid and startDate ≥ endDate; fails with
InvalidCommissionRate when (amounts and dates valid and) the commission
rate exceeds 100 — the code validates on a 0..100 percentage scale, not the
0..10000 basis-point scale — and succeeds in all other cases. -/
theorem validate_agreement_params_spec (mr sd : Int) (s e r : Nat) :
    (validate_agreement_params mr sd s e r = .ok () ↔
      0 < mr ∧ 0 ≤ sd ∧ s < e ∧ r ≤ 100) ∧
    (validate_agreement_params mr sd s e r = .error Types.Error.InvalidAmount ↔
      mr ≤ 0 ∨ sd < 0) ∧
    (validate_agreement_params mr sd s e r = .error Types.Error.InvalidDate ↔
      0 < mr ∧ 0 ≤ sd ∧ e ≤ s) ∧
    (validate_agreement_params mr sd s e r =
        .error Types.Error.InvalidCommissionRate ↔
      0 < mr ∧ 0 ≤ sd ∧ s < e ∧ 100 < r) := by
  unfold validate_agreement_params
  split_ifs with h1 h2 h3 <;>
    simp only [Except.ok.injEq, Except.error.injEq, reduceCtorEq,
      false_iff, iff_false, true_iff, iff_true, not_or, not_and, not_lt,
      not_le] <;>
    try omega

/-- CLAIM C4 counterexample.  A commission rate of 101 basis points is well
inside the claimed [0, 10000] bound, and all other parameters are valid,
yet the code rejects it with InvalidCommissionRate: the checked bound is
100, not 10000. -/
theorem validate_commission_scale_cex :
    (101 : Nat) ≤ 10000 ∧
    validate_agreement_params 1000 2000 100 200 101 =
      .error Types.Error.InvalidCommissionRate :=
  ⟨by norm_num, rfl⟩

/-- CLAIM C6.  A second create_agreement call with an id already present in
storage (and otherwise valid parameters) fails with
AgreementAlreadyExists, and both the stored agreement of the first call
and the AgreementCount counter are preserved unchanged. -/
theorem create_agreement_duplicate_rejected (st : GlobalState) (id : String)
    (landlord tenant : Address) (agent : Option Address) (mr sd : Int)
    (s e r : Nat) (A0 : Types.RentAgreement)
    (hv : validate_agreement_params mr sd s e r = .ok ())
    (h : st.agreements id = some A0) :
    create_agreement st id landlord tenant agent mr sd s e r =
      .error Types.Error.AgreementAlreadyExists ∧
    (applyCreate st id landlord tenant agent mr sd s e r).agreements id =
      some A0 ∧
    (applyCreate st id landlord tenant agent mr sd s e r).agreementCount =
      st.agreementCount := by
  have hc : create_agreement st id landlord tenant agent mr sd s e r =
      .error Types.Error.AgreementAlreadyExists := by
    unfold create_agreement
    rw [hv, h]
    rfl
  have ha : applyCreate st id landlord tenant agent mr sd s e r = st := by
    unfold applyCreate
    rw [hc]
  exact ⟨hc, by rw [ha, h], by rw [ha]⟩

/-- CLAIM C6 witness: on a storage already holding sampleRentAgreement
under id "A" with counter 1, a duplicate creation is rejected and the
stored entry and counter survive. -/
theorem create_agreement_duplicate_rejected_witness :
    create_agreement oneAgreementState "A" 0 1 none 1000 0 0 1 0 =
      .error Types.Error.AgreementAlreadyExists ∧
    (applyCreate oneAgreementState "A" 0 1 none 1000 0 0 1 0).agreements "A" =
      some sampleRentAgreement ∧
    (applyCreate oneAgreementState "A" 0 1 none 1000 0 0 1 0).agreementCount =
      oneAgreementState.agreementCount :=
  create_agreement_duplicate_rejected oneAgreementState "A" 0 1 none 1000 0
    0 1 0 sampleRentAgreement rfl rfl

/-- CLAIM C7 (amended).  Every successful create_agreement call persists a
RentAgreement with status Draft, total_rent_paid 0 and payment_count 0,
and sets the global AgreementCount to its old value plus one reduced
modulo 2^32; in particular the count grows by exactly 1 whenever the old
count is below 2^32 - 1, but wraps to 0 at the u32 maximum. -/
theorem create_agreement_success_spec (st : GlobalState) (id : String)
    (landlord tenant : Address) (agent : Option Address) (mr sd : Int)
    (s e r : Nat) (st2 : GlobalState)
    (h : create_agreement st id landlord tenant agent mr sd s e r = .ok st2) :
    (∃ A, st2.agreements id = some A ∧
      A.status = Types.AgreementStatus.Draft ∧
      A.total_rent_paid = 0 ∧ A.payment_count = 0) ∧
    get_agreement_count st2 = u32wrap (get_agreement_count st + 1) ∧
    (get_agreement_count st < 2 ^ 32 - 1 →
      get_agreement_count st2 = get_agreement_count st + 1) := by
  unfold create_agreement at h
  cases hv : validate_agreement_params mr sd s e r with
  | error e2 =>
    rw [hv] at h
    exact Except.noConfusion h
  | ok u =>
    rw [hv] at h
    by_cases hd : (st.agreements id).isSome = true
    · rw [if_pos hd] at h
      exact Except.noConfusion h
    · rw [if_neg hd] at h
      cases h
      refine ⟨⟨{ agreement_id := id, landlord := landlord, tenant := tenant
                 agent := agent, monthly_rent := mr, security_deposit := sd
                 start_date := s, end_date := e, agent_commission_rate := r
                 status := .Draft, total_rent_paid := 0, payment_count := 0 },
               by simp, rfl, rfl, rfl⟩, rfl, ?_⟩
      · intro hlt
        show u32wrap (st.agreementCount + 1) = st.agreementCount + 1
        refine u32wrap_eq_of_lt _ ?_
        unfold get_agreement_count at hlt
        omega

/-- CLAIM C7 witness: creating agreement "A" on the empty storage stores a
Draft agreement with zero totals and moves the counter from 0 to 1. -/
theorem create_agreement_success_spec_witness :
    (∃ A, (applyCreate emptyState "A" 0 1 none 1000 0 0 1 0).agreements "A" =
        some A ∧
      A.status = Types.AgreementStatus.Draft ∧
      A.total_rent_paid = 0 ∧ A.payment_count = 0) ∧
    get_agreement_count (applyCreate emptyState "A" 0 1 none 1000 0 0 1 0) =
      u32wrap (get_agreement_count emptyState + 1) ∧
    (get_agreement_count emptyState < 2 ^ 32 - 1 →
      get_agreement_count (applyCreate emptyState "A" 0 1 none 1000 0 0 1 0) =
        get_agreement_count emptyState + 1) :=
  create_agreement_success_spec emptyState "A" 0 1 none 1000 0 0 1 0
    (applyCreate emptyState "A" 0 1 none 1000 0 0 1 0) rfl

/-- CLAIM C7 counterexample.  On a storage whose AgreementCount sits at the
u32 maximum 2^32 - 1, a perfectly valid creation still succeeds, but the
persisted counter wraps to 0 instead of increasing by exactly 1. -/
theorem agreement_count_wrap_cex :
    (create_agreement maxCountState "B" 0 1 none 1000 0 0 1 0).isOk = true ∧
    get_agreement_count maxCountState = 2 ^ 32 - 1 ∧
    get_agreement_count (applyCreate maxCountState "B" 0 1 none 1000 0 0 1 0) =
      0 ∧
    get_agreement_count (applyCreate maxCountState "B" 0 1 none 1000 0 0 1 0) ≠
      get_agreement_count maxCountState + 1 := by
  refine ⟨rfl, by decide, by decide, by decide⟩

/-- Unfolding lemma: a pay_rent call that finds an Active agreement whose
monthly rent equals the paid amount succeeds and produces exactly the
storage written by the success branch of the source. -/
theorem pay_rent_ok_eq (st : GlobalState) (id : String) (tok : Address)
    (amount : Int) (ts : Nat) (agreement : Payment.Agreement)
    (h : st.instAgreements id = some agreement)
    (hact : agreement.status = Payment.AgreementStatus.Active)
    (hamt : amount = agreement.monthly_rent) :
    pay_rent st id tok amount ts = .ok
      { st with
        instAgreements := fun s =>
          if s = id then
            some { agreement with
                   total_rent_paid :=
                     i128wrap (agreement.total_rent_paid + amount)
                   payment_count := u32wrap (agreement.payment_count + 1) }
          else st.instAgreements s
        instPaymentRecords := fun s n =>
          if s = id ∧ n = u32wrap (agreement.payment_count + 1) then
            some { agreement_id := id
                   payment_number := u32wrap (agreement.payment_count + 1)
                   amount := amount
                   landlord_amount :=
                     (calculate_payment_split amount
                       agreement.commission_rate).1
                   agent_amount :=
                     (calculate_payment_split amount
                       agreement.commission_rate).2
                   timestamp := ts
                   tenant := agreement.tenant }
          else st.instPaymentRecords s n } := by
  unfold pay_rent create_payment_record
  rw [h]
  simp [hact, ← hamt]

/-- CLAIM C2.  On any storage holding, in the slot read by pay_rent, a
fresh Active agreement with monthly rent 1000 and commission rate 0, two
successive pay_rent calls of amount 1000 both succeed; afterwards the
stored agreement carries total_rent_paid 2000 and payment_count 2, and
two distinct payment records sit at sequence numbers 1 and 2, each with
payment_number equal to its sequence number and with
landlord_amount + agent_amount equal to the gross amount 1000. -/
theorem two_payments_accumulate (st : GlobalState) (id : String)
    (tok : Address) (ts1 ts2 : Nat) (agr : Payment.Agreement)
    (h : st.instAgreements id = some agr)
    (hact : agr.status = Payment.AgreementStatus.Active)
    (hmr : agr.monthly_rent = 1000) (hcr : agr.commission_rate = 0)
    (htp : agr.total_rent_paid = 0) (hpc : agr.payment_count = 0) :
    ∃ st1 st2,
      pay_rent st id tok 1000 ts1 = .ok st1 ∧
      pay_rent st1 id tok 1000 ts2 = .ok st2 ∧
      (∃ agr2, st2.instAgreements id = some agr2 ∧
        agr2.total_rent_paid = 2000 ∧ agr2.payment_count = 2) ∧
      (∃ r1, st2.instPaymentRecords id 1 = some r1 ∧
        r1.payment_number = 1 ∧
        r1.landlord_amount + r1.agent_amount = 1000) ∧
      (∃ r2, st2.instPaymentRecords id 2 = some r2 ∧
        r2.payment_number = 2 ∧
        r2.landlord_amount + r2.agent_amount = 1000) ∧
      st2.instPaymentRecords id 1 ≠ st2.instPaymentRecords id 2 := by
  have hs0 : calculate_payment_split 1000 0 = (1000, 0) := by decide
  have hw1 : i128wrap 1000 = 1000 := by decide
  have hw2 : i128wrap 2000 = 2000 := by decide
  have hu1 : u32wrap 1 = 1 := by decide
  have hu2 : u32wrap 2 = 2 := by decide
  obtain ⟨st1, e1, hA1, hR1⟩ :
      ∃ st1, pay_rent st id tok 1000 ts1 = .ok st1 ∧
        st1.instAgreements id =
          some { agr with total_rent_paid := 1000, payment_count := 1 } ∧
        st1.instPaymentRecords id 1 =
          some { agreement_id := id, payment_number := 1, amount := 1000
                 landlord_amount := 1000, agent_amount := 0
                 timestamp := ts1, tenant := agr.tenant } := by
    refine ⟨_, pay_rent_ok_eq st id tok 1000 ts1 agr h hact hmr.symm, ?_, ?_⟩
    · simp [htp, hpc, hw1, hu1]
    · simp [htp, hpc, hcr, hw1, hu1, hs0]
  have e2 := pay_rent_ok_eq st1 id tok 1000 ts2
    { agr with total_rent_paid := 1000, payment_count := 1 } hA1
    (by simpa using hact) (by simpa using hmr.symm)
  refine ⟨st1, _, e1, e2, ?_, ?_, ?_, ?_⟩
  · refine ⟨{ agr with total_rent_paid := 2000, payment_count := 2 },
      ?_, rfl, rfl⟩
    simp [hw2, hu2]
  · refine ⟨{ agreement_id := id, payment_number := 1, amount := 1000
              landlord_amount := 1000, agent_amount := 0
              timestamp := ts1, tenant := agr.tenant }, ?_, rfl, by norm_num⟩
    simp [hu2, hR1]
  · refine ⟨{ agreement_id := id, payment_number := 2, amount := 1000
              landlord_amount := 1000, agent_amount := 0
              timestamp := ts2, tenant := agr.tenant }, ?_, rfl, by norm_num⟩
    simp [hu2, hcr, hs0]
  · simp [hu2, hcr, hs0, hR1, Payment.PaymentRecord.mk.injEq]

/-- CLAIM C2 witness: the two-payment scenario run on activeState. -/
theorem two_payments_accumulate_witness :
    ∃ st1 st2,
      pay_rent activeState "A" 7 1000 11 = .ok st1 ∧
      pay_rent st1 "A" 7 1000 12 = .ok st2 ∧
      (∃ agr2, st2.instAgreements "A" = some agr2 ∧
        agr2.total_rent_paid = 2000 ∧ agr2.payment_count = 2) ∧
      (∃ r1, st2.instPaymentRecords "A" 1 = some r1 ∧
        r1.payment_number = 1 ∧
        r1.landlord_amount + r1.agent_amount = 1000) ∧
      (∃ r2, st2.instPaymentRecords "A" 2 = some r2 ∧
        r2.payment_number = 2 ∧
        r2.landlord_amount + r2.agent_amount = 1000) ∧
      st2.instPaymentRecords "A" 1 ≠ st2.instPaymentRecords "A" 2 :=
  two_payments_accumulate activeState "A" 7 11 12 activeAgreement
    (by decide) rfl rfl rfl rfl rfl

/-- CLAIM C5.  For every agreement stored in the slot pay_rent reads,
pay_rent returns AgreementNotActive when the status is not Active, and
InvalidAmount when the status is Active but the amount differs from the
stored monthly rent; in both cases the invocation errors, so the host
rolls it back and the whole storage is left unchanged. -/
theorem pay_rent_error_cases (st : GlobalState) (id : String) (tok : Address)
    (amount : Int) (ts : Nat) (agreement : Payment.Agreement)
    (h : st.instAgreements id = some agreement) :
    (agreement.status ≠ Payment.AgreementStatus.Active →
      pay_rent st id tok amount ts = .error Payment.Error.AgreementNotActive ∧
      applyPay st id tok amount ts = st) ∧
    (agreement.status = Payment.AgreementStatus.Active →
      amount ≠ agreement.monthly_rent →
      pay_rent st id tok amount ts = .error Payment.Error.InvalidAmount ∧
      applyPay st id tok amount ts = st) := by
  constructor
  · intro hs
    have hp : pay_rent st id tok amount ts =
        .error Payment.Error.AgreementNotActive := by
      unfold pay_rent
      rw [h]
      simp [hs]
    exact ⟨hp, by unfold applyPay; rw [hp]⟩
  · intro hs ha
    have hp : pay_rent st id tok amount ts =
        .error Payment.Error.InvalidAmount := by
      unfold pay_rent
      rw [h]
      simp [hs, ha]
    exact ⟨hp, by unfold applyPay; rw [hp]⟩

/-- CLAIM C5 witness: a Pending agreement rejects payment with
AgreementNotActive, an Active agreement rejects a wrong amount with
InvalidAmount, and both storages are untouched. -/
theorem pay_rent_error_cases_witness :
    (pay_rent pendingState "A" 7 1000 5 =
        .error Payment.Error.AgreementNotActive ∧
      applyPay pendingState "A" 7 1000 5 = pendingState) ∧
    (pay_rent activeState "A" 7 999 5 = .error Payment.Error.InvalidAmount ∧
      applyPay activeState "A" 7 999 5 = activeState) :=
  ⟨(pay_rent_error_cases pendingState "A" 7 1000 5 pendingAgreement
      (by decide)).1 (by decide),
    (pay_rent_error_cases activeState "A" 7 999 5 activeAgreement
      (by decide)).2 rfl (by decide)⟩

/-- CLAIM C3 (code bug).  Creating an agreement succeeds and the agreement
is visible to has_agreement, yet the very next pay_rent on the same id
fails at its load step: create_agreement writes a RentAgreement to the
persistent Agreement(id) slot while pay_rent reads a differently shaped
Agreement from the instance Agreement(id) slot of its own key enum, so
creation and payment do not address the same storage slot. -/
theorem create_then_pay_rent_misses :
    (create_agreement emptyState "AGR" 0 1 none 1000 0 0 1 0).isOk = true ∧
    has_agreement (applyCreate emptyState "AGR" 0 1 none 1000 0 0 1 0) "AGR" =
      true ∧
    (applyCreate emptyState "AGR" 0 1 none 1000 0 0 1 0).instAgreements
      "AGR" = none ∧
    pay_rent (applyCreate emptyState "AGR" 0 1 none 1000 0 0 1 0) "AGR" 7
      1000 5 = .error Payment.Error.InvalidAmount :=
  ⟨rfl, rfl, rfl, rfl⟩

/-- CLAIM C8 (code bug).  A successful pay_rent call does not touch the
global PaymentCount that get_payment_count reads: the counter is the same
before and after the call, not one more. -/
theorem pay_rent_leaves_payment_count :
    (pay_rent activeState "A" 7 1000 5).isOk = true ∧
    get_payment_count (applyPay activeState "A" 7 1000 5) =
      get_payment_count activeState ∧
    get_payment_count (applyPay activeState "A" 7 1000 5) ≠
      get_payment_count activeState + 1 :=
  ⟨rfl, rfl, by decide⟩

/-- CLAIM C9 (code bug).  pay_rent on an id with no stored agreement fails
with Payment.Error.InvalidAmount, the very same variant it uses for the
amount-mismatch rejection, not with a distinct not-found error: the
payment.rs error enum has no not-found variant at all. -/
theorem pay_rent_missing_agreement_error :
    emptyState.instAgreements "MISSING" = none ∧
    pay_rent emptyState "MISSING" 7 1000 5 =
      .error Payment.Error.InvalidAmount ∧
    pay_rent activeState "A" 7 999 5 = .error Payment.Error.InvalidAmount :=
  ⟨rfl, rfl, rfl⟩

/-- A successful create_agreement leaves the persistent Payment slots and
the global PaymentCount untouched. -/
theorem create_agreement_ok_preserves_payments (st : GlobalState)
    (id : String) (landlord tenant : Address) (agent : Option Address)
    (mr sd : Int) (s e r : Nat) (st2 : GlobalState)
    (h : create_agreement st id landlord tenant agent mr sd s e r = .ok st2) :
    st2.payments = st.payments ∧ st2.paymentCount = st.paymentCount := by
  unfold create_agreement at h
  cases hv : validate_agreement_params mr sd s e r with
  | error e2 =>
    rw [hv] at h
    exact Except.noConfusion h
  | ok u =>
    rw [hv] at h
    by_cases hd : (st.agreements id).isSome = true
    · rw [if_pos hd] at h
      exact Except.noConfusion h
    · rw [if_neg hd] at h
      cases h
      exact ⟨rfl, rfl⟩

/-- A successful pay_rent leaves the persistent Payment slots and the
global PaymentCount untouched. -/
theorem pay_rent_ok_preserves_payments (st : GlobalState) (id : String)
    (tok : Address) (amount : Int) (ts : Nat) (st2 : GlobalState)
    (h : pay_rent st id tok amount ts = .ok st2) :
    st2.payments = st.payments ∧ st2.paymentCount = st.paymentCount := by
  unfold pay_rent create_payment_record at h
  split at h
  · exact Except.noConfusion h
  · split at h
    · exact Except.noConfusion h
    · split at h
      · exact Except.noConfusion h
      · cases h
        exact ⟨rfl, rfl⟩

/-- Every state reachable through the exposed mutating operations has the
global PaymentCount at 0 and every persistent Payment slot absent: no
operation ever writes them. -/
theorem reachable_payments_empty (st : GlobalState) (h : Reachable st) :
    st.paymentCount = 0 ∧ ∀ pid, st.payments pid = none := by
  induction h with
  | init => exact ⟨rfl, fun _ => rfl⟩
  | create st0 id landlord tenant agent mr sd s e r _ ih =>
    unfold applyCreate
    cases hc : create_agreement st0 id landlord tenant agent mr sd s e r with
    | error e2 => exact ih
    | ok st2 =>
      obtain ⟨hp, hn⟩ := create_agreement_ok_preserves_payments st0 id
        landlord tenant agent mr sd s e r st2 hc
      exact ⟨hn.trans ih.1, fun pid => (congrFun hp pid).trans (ih.2 pid)⟩
  | pay st0 id tok amount ts _ ih =>
    unfold applyPay
    cases hc : pay_rent st0 id tok amount ts with
    | error e2 => exact ih
    | ok st2 =>
      obtain ⟨hp, hn⟩ := pay_rent_ok_preserves_payments st0 id tok amount ts
        st2 hc
      exact ⟨hn.trans ih.1, fun pid => (congrFun hp pid).trans (ih.2 pid)⟩

/-- CLAIM C10.  In every storage state reachable from the empty storage
through the exposed mutating operations create_agreement and pay_rent,
get_payment answers PaymentNotFound for every payment id and
get_total_paid answers 0 for every agreement id: no operation ever writes
a persistent Payment slot or the PaymentCount counter these queries read. -/
theorem queries_empty_of_reachable (st : GlobalState) (pid aid : String)
    (h : Reachable st) :
    get_payment st pid = .error Types.Error.PaymentNotFound ∧
    get_total_paid st aid = .ok 0 := by
  obtain ⟨hc, hp⟩ := reachable_payments_empty st h
  constructor
  · unfold get_payment
    rw [hp pid]
  · unfold get_total_paid
    rw [hc]
    rfl

/-- CLAIM C10 witness: the property instantiated at the (reachable) empty
storage and the payment and agreement ids used by the test suite. -/
theorem queries_empty_of_reachable_witness :
    get_payment emptyState "PAY_001" = .error Types.Error.PaymentNotFound ∧
    get_total_paid emptyState "AGR_001" = .ok 0 :=
  queries_empty_of_reachable emptyState "PAY_001" "AGR_001" Reachable.init
